import Mathlib

/-!
Shallow embedding of the TSO500 Dashboard cohort resolution engine
(`app.py`), covering the reactive tabular filter `filtered_data`, the
clinical-trial filter `filtered_clinical_data`, the Cypher helper
`run_cypher_query`, the oncoprint matrix construction, and the synthetic
Kaplan-Meier survival stratification in `survival_curve`.

Tables are lists of records; pandas operations are translated pointwise:
`isin` becomes `List.contains`, boolean-mask selection becomes
`List.filter`, `unique()` becomes first-appearance deduplication,
`value_counts()` becomes a stable descending sort of (value, count)
pairs, and `drop_duplicates('mrn')` keeps the first row per mrn.
Columns never read by the logic under verification (allele fraction,
actionability, dose level, dates) are omitted from the row records.
NumPy's globally seeded generator is modelled by an explicit
deterministic state machine (`NpRandom`): the exact float values of
`np.random.exponential` / `np.random.binomial` are abstracted to
naturals, while seeding, sequential state threading and the dependence
of each draw on the distribution parameters are preserved, which is
what the stratification/reproducibility properties are about.
`lifelines.KaplanMeierFitter` is an external collaborator and a pure
deterministic function of `(times, events, label)`, so a fitted curve
is represented by exactly those fit inputs.
-/

/-- One row of the merged patient/variant table produced by
`pd.merge(variants_df, demographics_df, on='mrn')` in `load_data`. -/
structure MergedRow where
  mrn : Nat
  age : Nat
  sex : String
  gene : String
  assessment : String
deriving DecidableEq

/-- One row of `clinical_trial_subjects.csv` (an enrollment). -/
structure SubjectRow where
  rave_id : Nat
  mrn : Nat
  protocol_id : String
  enrollment_status : String
deriving DecidableEq

/-- One row of `interventions.csv`. -/
structure InterventionRow where
  rave_id : Nat
  intervention_category : String
deriving DecidableEq

/-- One row of `adverse_events.csv`. -/
structure AdverseEventRow where
  rave_id : Nat
  grade : Nat
  serious : Bool
  ae_body_system : String
deriving DecidableEq

/-- One row of `protocols.csv`. -/
structure ProtocolRow where
  protocol_id : String
  phase : String
  status : String
deriving DecidableEq

/-- The dictionary returned by `load_data` (the tables the server logic
reads; the raw `demographics`/`variants` frames only feed the merge). -/
structure Data where
  merged : List MergedRow
  subjects : List SubjectRow
  interventions : List InterventionRow
  adverse_events : List AdverseEventRow
  protocols : List ProtocolRow
deriving DecidableEq

/-- The filter-control state read through `input.*()` in the server:
sex checkbox group, age slider, gene select, assessment checkbox group,
protocol select, intervention select, adverse-event-grade checkbox
group. -/
structure Filters where
  demo_sex_filter : List String
  demo_age_filter : Nat × Nat
  gene_filter : String
  assessment_filter : List String
  protocol_filter : String
  intervention_filter : String
  adverse_event_filter : List String
deriving DecidableEq

/-- The declared default value of every filter control, as given by the
`selected=` / `value=` arguments in `app_ui`. -/
def defaultFilters : Filters :=
  { demo_sex_filter := ["male", "female"]
    demo_age_filter := (18, 85)
    gene_filter := "All"
    assessment_filter :=
      ["Pathogenic", "Likely Pathogenic", "VUS", "Likely Benign", "Benign"]
    protocol_filter := "All"
    intervention_filter := "All"
    adverse_event_filter := ["1", "2", "3", "4", "5"] }

/-- `filtered_data` (`app.py` lines 428-455): starts from the full merged
table and applies each tabular predicate only when it differs from its
default (sex: fewer than 2 boxes checked; age: range moved off [18,85];
gene: not "All"; assessment: fewer than 5 boxes checked). -/
def filtered_data (input : Filters) (merged : List MergedRow) :
    List MergedRow :=
  let df1 := if input.demo_sex_filter.length < 2 then
      merged.filter (fun r => input.demo_sex_filter.contains r.sex)
    else merged
  let df2 := if 18 < input.demo_age_filter.1 ∨ input.demo_age_filter.2 < 85 then
      df1.filter (fun r =>
        decide (input.demo_age_filter.1 ≤ r.age) &&
        decide (r.age ≤ input.demo_age_filter.2))
    else df1
  let df3 := if input.gene_filter ≠ "All" then
      df2.filter (fun r => r.gene == input.gene_filter)
    else df2
  if input.assessment_filter.length < 5 then
    df3.filter (fun r => input.assessment_filter.contains r.assessment)
  else df3

/-- Helper for `pdUnique`: drop elements already seen, left to right. -/
def pdUniqueAux {α : Type} [DecidableEq α] (seen : List α) :
    List α → List α
  | [] => []
  | a :: l =>
    if seen.contains a then pdUniqueAux seen l
    else a :: pdUniqueAux (a :: seen) l

/-- First-appearance deduplication: the model of pandas `Series.unique()`
(order of first occurrence is preserved). -/
def pdUnique {α : Type} [DecidableEq α] (l : List α) : List α :=
  pdUniqueAux [] l

/-- The cohort (distinct patient identifiers) carried by a row set; the
model of `df.drop_duplicates('mrn')['mrn']` / `df['mrn'].unique()`. -/
def cohortMrns (rows : List MergedRow) : List Nat :=
  pdUnique (rows.map (fun r => r.mrn))

/-- Helper for `dropDupMrn`: drop rows whose mrn was already seen. -/
def dropDupMrnAux (seen : List Nat) : List MergedRow → List MergedRow
  | [] => []
  | r :: l =>
    if seen.contains r.mrn then dropDupMrnAux seen l
    else r :: dropDupMrnAux (r.mrn :: seen) l

/-- `df.drop_duplicates('mrn')`: keep the first row for each mrn. -/
def dropDupMrn (l : List MergedRow) : List MergedRow :=
  dropDupMrnAux [] l

/-- Boolean row predicate equivalent to the sequential filter chain of
`filtered_data`: each dimension contributes its comparison exactly when
its control is away from the default. -/
def rowPasses (f : Filters) (r : MergedRow) : Bool :=
  (if f.demo_sex_filter.length < 2 then
     f.demo_sex_filter.contains r.sex else true) &&
  (if 18 < f.demo_age_filter.1 ∨ f.demo_age_filter.2 < 85 then
     decide (f.demo_age_filter.1 ≤ r.age) &&
     decide (r.age ≤ f.demo_age_filter.2) else true) &&
  (if f.gene_filter ≠ "All" then r.gene == f.gene_filter else true) &&
  (if f.assessment_filter.length < 5 then
     f.assessment_filter.contains r.assessment else true)

/-- One tabular predicate: the value of a single filter control (any
other control staying at its default). -/
inductive TabPred where
  | sexP (sel : List String)
  | ageP (lo hi : Nat)
  | geneP (g : String)
  | assessP (sel : List String)
deriving DecidableEq

/-- The dimension (filter control) a tabular predicate constrains. -/
def TabPred.dim : TabPred → Nat
  | .sexP _ => 0
  | .ageP _ _ => 1
  | .geneP _ => 2
  | .assessP _ => 3

/-- Install a predicate into a filter snapshot by setting its control. -/
def setPred (f : Filters) : TabPred → Filters
  | .sexP sel => { f with demo_sex_filter := sel }
  | .ageP lo hi => { f with demo_age_filter := (lo, hi) }
  | .geneP g => { f with gene_filter := g }
  | .assessP sel => { f with assessment_filter := sel }

/-- The dictionary returned by `filtered_clinical_data`. -/
structure ClinicalOut where
  subjects : List SubjectRow
  interventions : List InterventionRow
  adverse_events : List AdverseEventRow
  protocols : List ProtocolRow
deriving DecidableEq

/-- First block of `filtered_clinical_data` (`app.py` lines 467-481):
when a protocol is chosen, keep only subjects on that protocol and the
interventions/adverse events whose rave_id belongs to one of them. -/
def applyProtocolFilter (f : Filters) (c : ClinicalOut) : ClinicalOut :=
  if f.protocol_filter ≠ "All" then
    let fs := c.subjects.filter (fun s => s.protocol_id == f.protocol_filter)
    let raves := pdUnique (fs.map (fun s => s.rave_id))
    { subjects := fs
      interventions := c.interventions.filter (fun r => raves.contains r.rave_id)
      adverse_events := c.adverse_events.filter (fun a => raves.contains a.rave_id)
      protocols := c.protocols }
  else c

/-- Second block of `filtered_clinical_data` (`app.py` lines 483-498):
when an intervention category is chosen, keep only records whose
rave_id has that intervention (computed from the already
protocol-filtered interventions). -/
def applyInterventionFilter (f : Filters) (c : ClinicalOut) : ClinicalOut :=
  if f.intervention_filter ≠ "All" then
    let iraves := pdUnique ((c.interventions.filter
        (fun r => r.intervention_category == f.intervention_filter)).map
          (fun r => r.rave_id))
    { subjects := c.subjects.filter (fun s => iraves.contains s.rave_id)
      interventions := c.interventions.filter (fun r => iraves.contains r.rave_id)
      adverse_events := c.adverse_events.filter (fun a => iraves.contains a.rave_id)
      protocols := c.protocols }
  else c

/-- Third block of `filtered_clinical_data` (`app.py` lines 500-505):
when fewer than all 5 grades are checked, keep only adverse events
whose grade (as a string) is among the checked ones. -/
def applyGradeFilter (f : Filters) (c : ClinicalOut) : ClinicalOut :=
  if f.adverse_event_filter.length < 5 then
    { c with adverse_events := (c.adverse_events.filter
        (fun a => f.adverse_event_filter.contains (toString a.grade))) }
  else c

/-- `filtered_clinical_data` (`app.py` lines 458-512): sequentially
applies the protocol, intervention and adverse-event-grade blocks to
copies of the four clinical tables. -/
def filtered_clinical_data (f : Filters) (d : Data) : ClinicalOut :=
  applyGradeFilter f (applyInterventionFilter f (applyProtocolFilter f
    { subjects := d.subjects
      interventions := d.interventions
      adverse_events := d.adverse_events
      protocols := d.protocols }))

/-- A filter snapshot with the adverse-event-grade control reset to its
default (all 5 grades checked), the other controls unchanged. -/
def withAllGrades (f : Filters) : Filters :=
  { f with adverse_event_filter := ["1", "2", "3", "4", "5"] }

/-- The observable state of the external graph store (`driver`): either
reachable, answering queries with some records, or unreachable with a
connection/timeout error. -/
inductive GraphState where
  | up (records : List (List (String × String)))
  | down (err : String)
deriving DecidableEq

/-- `run_cypher_query` (`app.py` lines 99-103): opens a session and runs
the query; there is no `try`/`except`, so a store failure propagates as
an exception (`Except.error`) and no fallback value is produced. -/
def run_cypher_query (g : GraphState) (query : String)
    (parameters : List (String × String)) :
    Except String (List (List (String × String))) :=
  match g, query, parameters with
  | .up records, _, _ => .ok records
  | .down err, _, _ => .error err

/-- The clinical cohort computation as a function of the graph store's
state: the server's `filtered_clinical_data` never invokes
`run_cypher_query` (it filters the in-memory CSV copies only), so the
graph state is simply discarded. -/
def clinical_resolution (_graph : GraphState) (f : Filters) (d : Data) :
    ClinicalOut :=
  filtered_clinical_data f d

/-- A call to the reactive `filtered_data()`: reads the global `data`
dictionary, builds a fresh filtered copy, and leaves the global state
untouched (the function body contains no assignment to `data`). -/
def filteredDataCall (f : Filters) (st : Data) : List MergedRow × Data :=
  (filtered_data f st.merged, st)

/-- A call to the reactive `filtered_clinical_data()`: likewise reads
the global `data` dictionary without mutating it. -/
def filteredClinicalCall (f : Filters) (st : Data) : ClinicalOut × Data :=
  (filtered_clinical_data f st, st)

/-- Descending order on the count component of a (value, count) pair. -/
def countGE {α : Type} (x y : α × Nat) : Prop := y.2 ≤ x.2

instance {α : Type} : DecidableRel (@countGE α) :=
  fun x y => Nat.decLe y.2 x.2

instance {α : Type} : IsTotal (α × Nat) countGE :=
  ⟨fun x y => Nat.le_total y.2 x.2⟩

instance {α : Type} : IsTrans (α × Nat) countGE :=
  ⟨fun _ _ _ hxy hyz => Nat.le_trans hyz hxy⟩

/-- Model of pandas `Series.value_counts()`: the distinct values with
their multiplicities, stably sorted by descending count (ties keep
first-appearance order). -/
def valueCounts {α : Type} [DecidableEq α] (l : List α) : List (α × Nat) :=
  List.insertionSort countGE ((pdUnique l).map (fun a => (a, l.count a)))

/-- Explicit model of NumPy's global pseudo-random generator state. -/
structure NpRandom where
  state : Nat
deriving DecidableEq

/-- `np.random.seed(s)`: reset the global generator to a fixed state. -/
def npSeed (s : Nat) : NpRandom := ⟨s⟩

/-- One generator step (deterministic 64-bit LCG model of the Mersenne
twister's state advance). -/
def npNext (g : NpRandom) : Nat × NpRandom :=
  let s := (g.state * 6364136223846793005 + 1442695040888963407) % (2 ^ 64)
  (s, ⟨s⟩)

/-- `np.random.exponential(scale, size=n)`: n sequential draws from the
global generator; each abstract event time depends on the state and on
the stratum's scale parameter. -/
def npExponential (scale : Nat) : Nat → NpRandom → List Nat × NpRandom
  | 0, g => ([], g)
  | n + 1, g =>
    let p := npNext g
    let rest := npExponential scale n p.2
    ((p.1 % (10 * scale)) :: rest.1, rest.2)

/-- `np.random.binomial(1, pct/100, size=n)`: n sequential Bernoulli
event/censoring indicators from the global generator. -/
def npBinomial (pct : Nat) : Nat → NpRandom → List Nat × NpRandom
  | 0, g => ([], g)
  | n + 1, g =>
    let p := npNext g
    let rest := npBinomial pct n p.2
    ((if p.1 % 100 < pct then 1 else 0) :: rest.1, rest.2)

/-- One plotted stratum: the stratum value it was computed for, the
legend label, the patient count, and the Kaplan-Meier fit inputs
(`kmf.fit(times, events, label)` is an external deterministic function
of exactly these). -/
structure StratumCurve where
  value : String
  label : String
  n : Nat
  times : List Nat
  events : List Nat
deriving DecidableEq

instance : Inhabited StratumCurve := ⟨⟨"", "", 0, [], []⟩⟩

/-- The per-stratum loop shared by all four branches of
`survival_curve`: iterate over the candidate stratum values, emitting a
curve (and advancing the shared generator) or skipping. -/
def runStrata (f : NpRandom → String → Option (StratumCurve × NpRandom)) :
    NpRandom → List String → List StratumCurve
  | _, [] => []
  | g, c :: cs =>
    match f g c with
    | none => runStrata f g cs
    | some p => p.1 :: runStrata f p.2 cs

/-- The hand-tuned (scale, event-probability percent) constants of the
intervention branch of `survival_curve` (`app.py` lines 919-930). -/
def interventionParams (c : String) : Nat × Nat :=
  if c == "Immunotherapy" then (500, 60)
  else if c == "Chemotherapy" then (400, 70)
  else if c == "Targeted Therapy" then (450, 65)
  else (350, 75)

/-- One iteration of the intervention loop (`app.py` lines 903-935):
rave_ids with the category, their enrolled mrns, the cohort members
among them; emit a curve only when that subset is non-empty. -/
def mkInterventionCurve (df : List MergedRow) (subjects : List SubjectRow)
    (interventions : List InterventionRow) (g : NpRandom) (c : String) :
    Option (StratumCurve × NpRandom) :=
  let raves := pdUnique ((interventions.filter
      (fun r => r.intervention_category == c)).map (fun r => r.rave_id))
  let mrns := pdUnique ((subjects.filter
      (fun s => raves.contains s.rave_id)).map (fun s => s.mrn))
  let pats := pdUnique ((df.filter
      (fun r => mrns.contains r.mrn)).map (fun r => r.mrn))
  let n := pats.length
  if 0 < n then
    let ps := interventionParams c
    let te := npExponential ps.1 n g
    let ev := npBinomial ps.2 n te.2
    some ({ value := c, label := c ++ " (n=" ++ toString n ++ ")",
            n := n, times := te.1, events := ev.1 }, ev.2)
  else none

/-- The hand-tuned (scale, percent) constants of the protocol branch,
keyed by trial phase (`app.py` lines 966-974). -/
def phaseParams (phase : String) : Nat × Nat :=
  if phase == "Phase III" then (500, 60)
  else if phase == "Phase II" then (400, 70)
  else (300, 80)

/-- Phase lookup of the protocol branch (`app.py` lines 961-963). -/
def protocolPhase (protocols : List ProtocolRow) (pid : String) : String :=
  match (protocols.filter (fun p => p.protocol_id == pid)).head? with
  | some p => p.phase
  | none => "Unknown"

/-- One iteration of the protocol loop (`app.py` lines 949-979). -/
def mkProtocolCurve (df : List MergedRow) (subjects : List SubjectRow)
    (protocols : List ProtocolRow) (g : NpRandom) (pid : String) :
    Option (StratumCurve × NpRandom) :=
  let mrns := pdUnique ((subjects.filter
      (fun s => s.protocol_id == pid)).map (fun s => s.mrn))
  let pats := pdUnique ((df.filter
      (fun r => mrns.contains r.mrn)).map (fun r => r.mrn))
  let n := pats.length
  if 0 < n then
    let phase := protocolPhase protocols pid
    let ps := phaseParams phase
    let te := npExponential ps.1 n g
    let ev := npBinomial ps.2 n te.2
    some ({ value := pid,
            label := pid ++ " - " ++ phase ++ " (n=" ++ toString n ++ ")",
            n := n, times := te.1, events := ev.1 }, ev.2)
  else none

/-- The hand-tuned (scale, percent) constants of the gene branch
(`app.py` lines 995-1003). -/
def geneParams (gene : String) : Nat × Nat :=
  if gene == "TP53" ∨ gene == "KRAS" then (350, 75)
  else if gene == "BRCA1" ∨ gene == "BRCA2" then (500, 60)
  else (450, 65)

/-- One iteration of the gene loop (`app.py` lines 988-1008). -/
def mkGeneCurve (df : List MergedRow) (g : NpRandom) (gene : String) :
    Option (StratumCurve × NpRandom) :=
  let pats := pdUnique ((df.filter
      (fun r => r.gene == gene)).map (fun r => r.mrn))
  let n := pats.length
  if 0 < n then
    let ps := geneParams gene
    let te := npExponential ps.1 n g
    let ev := npBinomial ps.2 n te.2
    some ({ value := gene, label := gene ++ " mutation (n=" ++ toString n ++ ")",
            n := n, times := te.1, events := ev.1 }, ev.2)
  else none

/-- The hand-tuned (scale, percent) constants of the sex branch
(`app.py` lines 1020-1025). -/
def sexParams (sex : String) : Nat × Nat :=
  if sex == "female" then (480, 65) else (420, 70)

/-- One iteration of the sex loop (`app.py` lines 1014-1030): patients
are the deduplicated cohort rows of that sex (the Python label
capitalizes the sex for display only). -/
def mkSexCurve (df : List MergedRow) (g : NpRandom) (sex : String) :
    Option (StratumCurve × NpRandom) :=
  let pats := ((dropDupMrn df).filter (fun r => r.sex == sex)).map
      (fun r => r.mrn)
  let n := pats.length
  if 0 < n then
    let ps := sexParams sex
    let te := npExponential ps.1 n g
    let ev := npBinomial ps.2 n te.2
    some ({ value := sex, label := sex ++ " (n=" ++ toString n ++ ")",
            n := n, times := te.1, events := ev.1 }, ev.2)
  else none

/-- `survival_curve` (`app.py` lines 878-1043). `globalRng` is the state
of NumPy's global generator on entry; the function immediately reseeds
it with the fixed seed 42 (line 887), shared by all strata. Candidate
strata: intervention — the first 4 distinct categories in appearance
order (`unique()[:4]`, line 901) over the full interventions CSV;
protocol — the 4 most-enrolled protocols (`value_counts().head(4)`,
line 947) over the full subjects CSV; gene — the 4 most frequent genes
of the filtered cohort (`value_counts().head(4)`, line 986); sex — the
fixed pair male/female. Unknown keys plot nothing. -/
def survival_curve (_globalRng : NpRandom) (stratify_by : String)
    (df : List MergedRow) (subjects : List SubjectRow)
    (interventions : List InterventionRow) (protocols : List ProtocolRow) :
    List StratumCurve :=
  let g := npSeed 42
  if stratify_by == "intervention" then
    runStrata (mkInterventionCurve df subjects interventions) g
      ((pdUnique (interventions.map (fun r => r.intervention_category))).take 4)
  else if stratify_by == "protocol" then
    runStrata (mkProtocolCurve df subjects protocols) g
      (((valueCounts (subjects.map (fun s => s.protocol_id))).take 4).map
        (fun x => x.1))
  else if stratify_by == "gene" then
    runStrata (mkGeneCurve df) g
      (((valueCounts (df.map (fun r => r.gene))).take 4).map (fun x => x.1))
  else if stratify_by == "sex" then
    runStrata (mkSexCurve df) g ["male", "female"]
  else []

/-- Row (gene) selection and order of the oncoprint (`app.py` line 661):
the 10 most frequent genes, in `value_counts()` (descending frequency)
order. -/
def oncoprintGenes (df : List MergedRow) : List String :=
  ((valueCounts (df.map (fun r => r.gene))).take 10).map (fun x => x.1)

/-- `gene_data` of the oncoprint (`app.py` line 662): the rows of the
top genes. -/
def oncoprintGeneData (df : List MergedRow) : List MergedRow :=
  df.filter (fun r => (oncoprintGenes df).contains r.gene)

/-- Column (sample) selection of the oncoprint (`app.py` line 665):
`gene_data['mrn'].unique()[:20]` — the first 20 distinct patients in
appearance order among the top-gene rows. -/
def oncoprintPatients (df : List MergedRow) : List Nat :=
  (pdUnique ((oncoprintGeneData df).map (fun r => r.mrn))).take 20

/-- One oncoprint cell (`app.py` lines 681-684): the assessment of the
first matching (patient, gene) row, if any. -/
def oncoprintCell (df : List MergedRow) (mrn : Nat) (gene : String) :
    Option String :=
  (((oncoprintGeneData df).filter
      (fun r => r.mrn == mrn && r.gene == gene)).head?).map
    (fun r => r.assessment)

/-- The spec's row-ordering key for the oncoprint, for comparison with
the code: the number of sampled columns whose cell for this gene is
flagged Pathogenic or Likely Pathogenic (the numerator of "pathogenic
load"; the denominator, the sampled-column count, is the same for every
row). -/
def pathLoadCount (df : List MergedRow) (gene : String) : Nat :=
  ((oncoprintPatients df).filter (fun m =>
    match oncoprintCell df m gene with
    | some a => a == "Pathogenic" || a == "Likely Pathogenic"
    | none => false)).length

/-- Per-sample variant count of a patient in a row set. -/
def variantCount (df : List MergedRow) (mrn : Nat) : Nat :=
  (df.filter (fun r => r.mrn == mrn)).length

/-- A concrete merged row (used to instantiate proved properties). -/
def rowA : MergedRow :=
  { mrn := 1, age := 45, sex := "female", gene := "TP53",
    assessment := "Pathogenic" }

/-- A filter snapshot whose only active predicate is the protocol
relationship predicate. -/
def f4 : Filters := { defaultFilters with protocol_filter := "PROT-001" }

/-- A concrete loaded dataset with enrollment/intervention/adverse-event
records. -/
def d4 : Data :=
  { merged := [rowA]
    subjects := [{ rave_id := 100, mrn := 1, protocol_id := "PROT-001",
                   enrollment_status := "Active" },
                 { rave_id := 101, mrn := 1, protocol_id := "PROT-002",
                   enrollment_status := "Completed" }]
    interventions := [{ rave_id := 100, intervention_category := "Chemotherapy" }]
    adverse_events := [{ rave_id := 100, grade := 3, serious := true,
                         ae_body_system := "Cardiac disorders" }]
    protocols := [{ protocol_id := "PROT-001", phase := "Phase II", status := "Active" },
                  { protocol_id := "PROT-002", phase := "Phase I", status := "Active" }] }

/-- Default snapshot with the sex multi-select emptied. -/
def fSexEmpty : Filters := { defaultFilters with demo_sex_filter := [] }

/-- Default snapshot with the assessment multi-select emptied. -/
def fAssessEmpty : Filters := { defaultFilters with assessment_filter := [] }

/-- Default snapshot with the adverse-event-grade multi-select emptied. -/
def fGradeEmpty : Filters := { defaultFilters with adverse_event_filter := [] }

/-- Interventions table whose first four distinct categories in
appearance order (CatA-CatD) are not its four most frequent categories
(CatE occurs three times). -/
def intvC : List InterventionRow :=
  [{ rave_id := 1, intervention_category := "CatA" },
   { rave_id := 2, intervention_category := "CatB" },
   { rave_id := 3, intervention_category := "CatC" },
   { rave_id := 4, intervention_category := "CatD" },
   { rave_id := 5, intervention_category := "CatE" },
   { rave_id := 6, intervention_category := "CatE" },
   { rave_id := 7, intervention_category := "CatE" }]

/-- Enrollments linking rave i to patient i, all on protocol P1. -/
def subjC : List SubjectRow :=
  (List.range 7).map (fun i =>
    { rave_id := i + 1, mrn := i + 1, protocol_id := "P1",
      enrollment_status := "Active" })

/-- Cohort rows for patients 1-7. -/
def dfC : List MergedRow :=
  (List.range 7).map (fun i =>
    { mrn := i + 1, age := 50, sex := "male", gene := "G1",
      assessment := "Benign" })

/-- A one-protocol table. -/
def protC : List ProtocolRow :=
  [{ protocol_id := "P1", phase := "Phase I", status := "Active" }]

/-- A cohort with exactly two distinct genes. -/
def dfW : List MergedRow :=
  [{ mrn := 1, age := 50, sex := "male", gene := "TP53",
     assessment := "Pathogenic" },
   { mrn := 2, age := 60, sex := "female", gene := "KRAS",
     assessment := "Benign" }]

/-- The first gene-stratified curve emitted on `dfW`. -/
def cW : StratumCurve :=
  (survival_curve (npSeed 0) "gene" dfW [] [] []).headI

/-- A row set where the most frequent gene (G1, three benign variants)
carries no pathogenic cell while the second gene (G2) is pathogenic in
every sampled column. -/
def df9 : List MergedRow :=
  [{ mrn := 1, age := 50, sex := "male", gene := "G1", assessment := "Benign" },
   { mrn := 2, age := 50, sex := "male", gene := "G1", assessment := "Benign" },
   { mrn := 3, age := 50, sex := "male", gene := "G1", assessment := "Benign" },
   { mrn := 1, age := 50, sex := "male", gene := "G2", assessment := "Pathogenic" },
   { mrn := 2, age := 50, sex := "male", gene := "G2", assessment := "Pathogenic" }]

/-- 20 patients with one variant each followed by patient 21 with five
variants: the variant-richest patient appears last. -/
def df9b : List MergedRow :=
  ((List.range 20).map (fun i =>
    { mrn := i + 1, age := 50, sex := "male", gene := "G1",
      assessment := "Benign" })) ++
  (List.replicate 5
    { mrn := 21, age := 50, sex := "male", gene := "G1",
      assessment := "Benign" })


/-! ### Bridging lemmas -/

lemma mem_filtered_data (f : Filters) (m : List MergedRow) (r : MergedRow) :
    r ∈ filtered_data f m ↔ r ∈ m ∧ rowPasses f r = true := by
  by_cases h1 : f.demo_sex_filter.length < 2 <;>
    by_cases h2 : 18 < f.demo_age_filter.1 ∨ f.demo_age_filter.2 < 85 <;>
      by_cases h3 : f.gene_filter ≠ "All" <;>
        by_cases h4 : f.assessment_filter.length < 5 <;>
          simp [filtered_data, rowPasses, h1, h2, h3, h4,
            List.mem_filter, and_assoc] <;> tauto

lemma applyGradeFilter_subjects (f : Filters) (c : ClinicalOut) :
    (applyGradeFilter f c).subjects = c.subjects := by
  unfold applyGradeFilter; split <;> rfl

lemma applyGradeFilter_interventions (f : Filters) (c : ClinicalOut) :
    (applyGradeFilter f c).interventions = c.interventions := by
  unfold applyGradeFilter; split <;> rfl

lemma applyGradeFilter_protocols (f : Filters) (c : ClinicalOut) :
    (applyGradeFilter f c).protocols = c.protocols := by
  unfold applyGradeFilter; split <;> rfl

lemma applyInterventionFilter_protocols (f : Filters) (c : ClinicalOut) :
    (applyInterventionFilter f c).protocols = c.protocols := by
  unfold applyInterventionFilter; split <;> rfl

lemma applyProtocolFilter_protocols (f : Filters) (c : ClinicalOut) :
    (applyProtocolFilter f c).protocols = c.protocols := by
  unfold applyProtocolFilter; split <;> rfl

/-! ### Claims -/

/-- C1: when every tabular predicate sits at its declared default (both
sexes checked, age range [18,85], gene "All", all 5 assessments
checked), `filtered_data` returns the merged table unchanged, so the
resolved cohort is exactly the set of all loaded patients (hence 200 of
them when the loaded table holds 200 patients). -/
theorem C1_default_suppression (f : Filters) (m : List MergedRow)
    (h1 : f.demo_sex_filter.length = 2)
    (h2 : f.demo_age_filter = (18, 85))
    (h3 : f.gene_filter = "All")
    (h4 : f.assessment_filter.length = 5) :
    filtered_data f m = m ∧
      cohortMrns (filtered_data f m) = cohortMrns m := by
  have h : filtered_data f m = m := by
    simp [filtered_data, h1, h2, h3, h4]
  exact ⟨h, by rw [h]⟩

theorem C1_default_suppression_witness :
    filtered_data defaultFilters [rowA] = [rowA] ∧
      cohortMrns (filtered_data defaultFilters [rowA]) = cohortMrns [rowA] :=
  C1_default_suppression defaultFilters [rowA] rfl rfl rfl rfl

/-- C2: activating two predicates on distinct filter controls resolves
to exactly the rows passing each predicate alone — the row set of the
conjunction equals (hence is contained in) the intersection of the
single-predicate row sets; an inactive (default) control contributes no
constraint. -/
theorem C2_conjunction (A B : TabPred) (hAB : A.dim ≠ B.dim)
    (m : List MergedRow) (r : MergedRow) :
    r ∈ filtered_data (setPred (setPred defaultFilters A) B) m ↔
      (r ∈ filtered_data (setPred defaultFilters A) m ∧
       r ∈ filtered_data (setPred defaultFilters B) m) := by
  rw [mem_filtered_data, mem_filtered_data, mem_filtered_data]
  cases A <;> cases B <;> simp [TabPred.dim] at hAB <;>
    simp [rowPasses, setPred, defaultFilters] <;> tauto

theorem C2_conjunction_witness :
    rowA ∈ filtered_data
        (setPred (setPred defaultFilters (TabPred.sexP ["female"]))
          (TabPred.geneP "TP53")) [rowA] ↔
      (rowA ∈ filtered_data (setPred defaultFilters (TabPred.sexP ["female"])) [rowA] ∧
       rowA ∈ filtered_data (setPred defaultFilters (TabPred.geneP "TP53")) [rowA]) :=
  C2_conjunction (TabPred.sexP ["female"]) (TabPred.geneP "TP53")
    (by decide) [rowA] rowA

/-- C3: cohort resolution is idempotent and pure — invoking
`filtered_data` (and `filtered_clinical_data`) twice on the same loaded
data yields identical row sets and identical patient-identifier sets,
and neither call mutates the global data dictionary between the two
calls. -/
theorem C3_idempotent_pure (f : Filters) (st : Data) :
    (filteredDataCall f st).1 = (filteredDataCall f (filteredDataCall f st).2).1 ∧
    cohortMrns (filteredDataCall f st).1 =
      cohortMrns (filteredDataCall f (filteredDataCall f st).2).1 ∧
    (filteredDataCall f st).2 = st ∧
    (filteredClinicalCall f st).1 =
      (filteredClinicalCall f (filteredClinicalCall f st).2).1 ∧
    (filteredClinicalCall f st).2 = st :=
  ⟨rfl, rfl, rfl, rfl, rfl⟩

/-- C4 counterexample: with the protocol relationship predicate active
(`f4`), the clinical cohort computation returns the very same output
whether the graph store is down or up — so no degraded-result signal of
any kind reaches the caller — and `run_cypher_query` itself propagates
a store failure as an exception instead of falling back. This refutes
the claim that a graph failure triggers a tabular-only fallback with a
degraded-result notification. -/
theorem C4_graph_failure_counterexample :
    clinical_resolution (GraphState.down "connection timeout") f4 d4 =
      clinical_resolution (GraphState.up []) f4 d4 ∧
    run_cypher_query (GraphState.down "connection timeout")
        "MATCH (p:Patient) RETURN p.mrn" [] =
      Except.error "connection timeout" :=
  ⟨rfl, rfl⟩

/-- C4 amended: the graph store is never consulted during cohort
computation — `filtered_clinical_data` applies relationship predicates
to the in-memory tabular copies, so its result is independent of the
graph store's state and no degraded-result signal exists; the only
graph accessor, `run_cypher_query`, propagates failure as an exception
with no fallback. -/
theorem C4_graph_failure_amended :
    (∀ g g2 : GraphState, ∀ f d,
      clinical_resolution g f d = clinical_resolution g2 f d) ∧
    (∀ e q ps, run_cypher_query (GraphState.down e) q ps = Except.error e) :=
  ⟨fun _ _ _ _ => rfl, fun _ _ _ => rfl⟩

/-- C7: the Synthetic Survival Estimator is reproducible — its output
is a function of the resolved cohort, the stratification key and the
static clinical tables alone, independent of the incoming global
generator state, because `np.random.seed(42)` re-fixes that state once
per invocation and the seeded generator is threaded (not reseeded)
across strata; two invocations on the same inputs give identical
per-stratum curves. -/
theorem C7_survival_reproducible (g1 g2 : NpRandom) (key : String)
    (df : List MergedRow) (s : List SubjectRow) (i : List InterventionRow)
    (p : List ProtocolRow) :
    survival_curve g1 key df s i p = survival_curve g2 key df s i p := rfl

/-- C10: the adverse-event grade predicate only ever narrows the
adverse_events component — the subjects, interventions and protocols
components are identical to what they would be with all five grades
selected — and the protocols component always equals the full
unfiltered protocols table. -/
theorem C10_grade_frame (f : Filters) (d : Data) :
    (filtered_clinical_data f d).subjects =
      (filtered_clinical_data (withAllGrades f) d).subjects ∧
    (filtered_clinical_data f d).interventions =
      (filtered_clinical_data (withAllGrades f) d).interventions ∧
    (filtered_clinical_data f d).protocols = d.protocols := by
  refine ⟨?_, ?_, ?_⟩
  · simp only [filtered_clinical_data, applyGradeFilter_subjects]; rfl
  · simp only [filtered_clinical_data, applyGradeFilter_interventions]; rfl
  · simp only [filtered_clinical_data, applyGradeFilter_protocols,
      applyInterventionFilter_protocols, applyProtocolFilter_protocols]

/-- C5: emptying a multi-select predicate entirely (zero choices) makes
that predicate match nothing — an empty sex or assessment selection
empties the tabular row set, and an empty grade selection empties the
adverse-events row set — rather than acting as "no constraint". -/
theorem C5_empty_multiselect :
    (∀ f m, f.demo_sex_filter = [] → filtered_data f m = []) ∧
    (∀ f m, f.assessment_filter = [] → filtered_data f m = []) ∧
    (∀ f d, f.adverse_event_filter = [] →
      (filtered_clinical_data f d).adverse_events = []) := by
  refine ⟨?_, ?_, ?_⟩
  · intro f m h
    simp [filtered_data, h]
  · intro f m h
    simp [filtered_data, h]
  · intro f d h
    simp [filtered_clinical_data, applyGradeFilter, h]

theorem C5_empty_multiselect_witness :
    filtered_data fSexEmpty [rowA] = [] ∧
    filtered_data fAssessEmpty [rowA] = [] ∧
    (filtered_clinical_data fGradeEmpty d4).adverse_events = [] :=
  ⟨C5_empty_multiselect.1 fSexEmpty [rowA] rfl,
   C5_empty_multiselect.2.1 fAssessEmpty [rowA] rfl,
   C5_empty_multiselect.2.2 fGradeEmpty d4 rfl⟩

/-! ### Deduplication, value counts and stratum-loop lemmas -/

lemma mem_pdUniqueAux {α : Type} [DecidableEq α] (x : α) :
    ∀ (l seen : List α),
      x ∈ pdUniqueAux seen l ↔ (x ∈ l ∧ x ∉ seen) := by
  intro l
  induction l with
  | nil => intro seen; simp [pdUniqueAux]
  | cons a l ih =>
    intro seen
    by_cases ha : seen.contains a = true
    · have ha2 : a ∈ seen := by simpa using ha
      rw [pdUniqueAux, if_pos ha, ih seen]
      simp only [List.mem_cons]
      constructor
      · exact fun hx => ⟨Or.inr hx.1, hx.2⟩
      · rintro ⟨h1 | hl, hs⟩
        · exact absurd (h1 ▸ ha2) hs
        · exact ⟨hl, hs⟩
    · have ha2 : a ∉ seen := by simpa using ha
      rw [pdUniqueAux, if_neg ha, List.mem_cons, ih (a :: seen)]
      simp only [List.mem_cons]
      by_cases hxa : x = a
      · subst hxa; tauto
      · constructor
        · rintro (h1 | ⟨hl, hs⟩)
          · exact absurd h1 hxa
          · exact ⟨Or.inr hl, fun hxs => hs (Or.inr hxs)⟩
        · rintro ⟨h1 | hl, hs⟩
          · exact absurd h1 hxa
          · refine Or.inr ⟨hl, ?_⟩
            rintro (h2 | h2)
            · exact hxa h2
            · exact hs h2

lemma mem_pdUnique {α : Type} [DecidableEq α] (l : List α) (x : α) :
    x ∈ pdUnique l ↔ x ∈ l := by
  rw [pdUnique, mem_pdUniqueAux]
  simp

lemma valueCounts_perm {α : Type} [DecidableEq α] (l : List α) :
    (valueCounts l).Perm ((pdUnique l).map (fun a => (a, l.count a))) :=
  List.perm_insertionSort _ _

lemma valueCounts_length {α : Type} [DecidableEq α] (l : List α) :
    (valueCounts l).length = (pdUnique l).length := by
  rw [(valueCounts_perm l).length_eq, List.length_map]

lemma mem_valueCounts_fst {α : Type} [DecidableEq α] (l : List α) (a : α)
    (h : a ∈ (valueCounts l).map (fun x => x.1)) : a ∈ l := by
  rw [List.mem_map] at h
  obtain ⟨p, hp, rfl⟩ := h
  have hm := (valueCounts_perm l).subset hp
  rw [List.mem_map] at hm
  obtain ⟨b, hb, rfl⟩ := hm
  exact (mem_pdUnique l b).mp hb

lemma valueCounts_snd {α : Type} [DecidableEq α] (l : List α) (p : α × Nat)
    (hp : p ∈ valueCounts l) : p.2 = l.count p.1 := by
  have hm := (valueCounts_perm l).subset hp
  rw [List.mem_map] at hm
  obtain ⟨b, hb, rfl⟩ := hm
  rfl

lemma valueCounts_sorted {α : Type} [DecidableEq α] (l : List α) :
    List.Pairwise countGE (valueCounts l) :=
  List.sorted_insertionSort countGE _

lemma runStrata_length_le (f : NpRandom → String → Option (StratumCurve × NpRandom)) :
    ∀ (cs : List String) (g : NpRandom),
      (runStrata f g cs).length ≤ cs.length := by
  intro cs
  induction cs with
  | nil => intro g; simp [runStrata]
  | cons c cs ih =>
    intro g
    cases hfc : f g c with
    | none =>
      simp only [runStrata, hfc]
      exact Nat.le_succ_of_le (ih g)
    | some p =>
      simp only [runStrata, hfc, List.length_cons]
      exact Nat.succ_le_succ (ih p.2)

lemma runStrata_sublist (f : NpRandom → String → Option (StratumCurve × NpRandom))
    (hf : ∀ g c cu g2, f g c = some (cu, g2) → cu.value = c) :
    ∀ (cs : List String) (g : NpRandom),
      ((runStrata f g cs).map (fun cu => cu.value)).Sublist cs := by
  intro cs
  induction cs with
  | nil => intro g; simp [runStrata]
  | cons c cs ih =>
    intro g
    cases hfc : f g c with
    | none =>
      simp only [runStrata, hfc]
      exact (ih g).cons c
    | some p =>
      simp only [runStrata, hfc, List.map_cons]
      rw [hf g c p.1 p.2 (by rw [hfc])]
      exact (ih p.2).cons₂ c

lemma runStrata_n_pos (f : NpRandom → String → Option (StratumCurve × NpRandom))
    (hf : ∀ g c cu g2, f g c = some (cu, g2) → 0 < cu.n) :
    ∀ (cs : List String) (g : NpRandom) (cu : StratumCurve),
      cu ∈ runStrata f g cs → 0 < cu.n := by
  intro cs
  induction cs with
  | nil => intro g cu h; simp [runStrata] at h
  | cons c cs ih =>
    intro g cu h
    cases hfc : f g c with
    | none => exact ih g cu (by simpa [runStrata, hfc] using h)
    | some p =>
      simp only [runStrata, hfc, List.mem_cons] at h
      rcases h with h | h
      · exact h ▸ hf g c p.1 p.2 (by rw [hfc])
      · exact ih p.2 cu h

lemma runStrata_eq_nil (f : NpRandom → String → Option (StratumCurve × NpRandom))
    (hf : ∀ g c, f g c = none) :
    ∀ (cs : List String) (g : NpRandom), runStrata f g cs = [] := by
  intro cs
  induction cs with
  | nil => intro g; rfl
  | cons c cs ih =>
    intro g
    simp only [runStrata, hf g c]
    exact ih g

lemma runStrata_length_eq (f : NpRandom → String → Option (StratumCurve × NpRandom)) :
    ∀ cs : List String, (∀ c ∈ cs, ∀ g, (f g c).isSome = true) →
      ∀ g, (runStrata f g cs).length = cs.length := by
  intro cs
  induction cs with
  | nil => intro _ g; rfl
  | cons c cs ih =>
    intro h g
    have hc := h c (List.mem_cons_self c cs) g
    cases hfc : f g c with
    | none => rw [hfc] at hc; simp at hc
    | some p =>
      simp only [runStrata, hfc, List.length_cons]
      rw [ih (fun c2 hc2 g2 => h c2 (List.mem_cons_of_mem c hc2) g2) p.2]

lemma mkInterventionCurve_value (df : List MergedRow) (s : List SubjectRow)
    (i : List InterventionRow) (g : NpRandom) (c : String)
    (cu : StratumCurve) (g2 : NpRandom)
    (h : mkInterventionCurve df s i g c = some (cu, g2)) : cu.value = c := by
  simp only [mkInterventionCurve] at h
  split at h
  · simp only [Option.some.injEq, Prod.mk.injEq] at h
    rw [← h.1]
  · simp at h

lemma mkInterventionCurve_n_pos (df : List MergedRow) (s : List SubjectRow)
    (i : List InterventionRow) (g : NpRandom) (c : String)
    (cu : StratumCurve) (g2 : NpRandom)
    (h : mkInterventionCurve df s i g c = some (cu, g2)) : 0 < cu.n := by
  simp only [mkInterventionCurve] at h
  split at h
  · rename_i hn
    simp only [Option.some.injEq, Prod.mk.injEq] at h
    rw [← h.1]
    exact hn
  · simp at h

lemma mkInterventionCurve_nil (s : List SubjectRow) (i : List InterventionRow)
    (g : NpRandom) (c : String) : mkInterventionCurve [] s i g c = none := by
  simp [mkInterventionCurve, pdUnique, pdUniqueAux]

lemma mkProtocolCurve_value (df : List MergedRow) (s : List SubjectRow)
    (p : List ProtocolRow) (g : NpRandom) (c : String)
    (cu : StratumCurve) (g2 : NpRandom)
    (h : mkProtocolCurve df s p g c = some (cu, g2)) : cu.value = c := by
  simp only [mkProtocolCurve] at h
  split at h
  · simp only [Option.some.injEq, Prod.mk.injEq] at h
    rw [← h.1]
  · simp at h

lemma mkProtocolCurve_n_pos (df : List MergedRow) (s : List SubjectRow)
    (p : List ProtocolRow) (g : NpRandom) (c : String)
    (cu : StratumCurve) (g2 : NpRandom)
    (h : mkProtocolCurve df s p g c = some (cu, g2)) : 0 < cu.n := by
  simp only [mkProtocolCurve] at h
  split at h
  · rename_i hn
    simp only [Option.some.injEq, Prod.mk.injEq] at h
    rw [← h.1]
    exact hn
  · simp at h

lemma mkProtocolCurve_nil (s : List SubjectRow) (p : List ProtocolRow)
    (g : NpRandom) (c : String) : mkProtocolCurve [] s p g c = none := by
  simp [mkProtocolCurve, pdUnique, pdUniqueAux]

lemma mkGeneCurve_value (df : List MergedRow) (g : NpRandom) (c : String)
    (cu : StratumCurve) (g2 : NpRandom)
    (h : mkGeneCurve df g c = some (cu, g2)) : cu.value = c := by
  simp only [mkGeneCurve] at h
  split at h
  · simp only [Option.some.injEq, Prod.mk.injEq] at h
    rw [← h.1]
  · simp at h

lemma mkGeneCurve_n_pos (df : List MergedRow) (g : NpRandom) (c : String)
    (cu : StratumCurve) (g2 : NpRandom)
    (h : mkGeneCurve df g c = some (cu, g2)) : 0 < cu.n := by
  simp only [mkGeneCurve] at h
  split at h
  · rename_i hn
    simp only [Option.some.injEq, Prod.mk.injEq] at h
    rw [← h.1]
    exact hn
  · simp at h

lemma mkGeneCurve_nil (g : NpRandom) (c : String) :
    mkGeneCurve [] g c = none := by
  simp [mkGeneCurve, pdUnique, pdUniqueAux]

lemma mkGeneCurve_isSome (df : List MergedRow) (g : NpRandom) (gene : String)
    (h : ∃ r ∈ df, r.gene = gene) : (mkGeneCurve df g gene).isSome = true := by
  obtain ⟨r, hr, hg⟩ := h
  have hmem : r.mrn ∈ pdUnique ((df.filter
      (fun r2 => r2.gene == gene)).map (fun r2 => r2.mrn)) := by
    rw [mem_pdUnique]
    exact List.mem_map_of_mem _ (List.mem_filter.mpr ⟨hr, by simp [hg]⟩)
  have hpos : 0 < (pdUnique ((df.filter
      (fun r2 => r2.gene == gene)).map (fun r2 => r2.mrn))).length :=
    List.length_pos.mpr (List.ne_nil_of_mem hmem)
  simp only [mkGeneCurve]
  rw [if_pos hpos]
  rfl

lemma mkSexCurve_value (df : List MergedRow) (g : NpRandom) (c : String)
    (cu : StratumCurve) (g2 : NpRandom)
    (h : mkSexCurve df g c = some (cu, g2)) : cu.value = c := by
  simp only [mkSexCurve] at h
  split at h
  · simp only [Option.some.injEq, Prod.mk.injEq] at h
    rw [← h.1]
  · simp at h

lemma mkSexCurve_n_pos (df : List MergedRow) (g : NpRandom) (c : String)
    (cu : StratumCurve) (g2 : NpRandom)
    (h : mkSexCurve df g c = some (cu, g2)) : 0 < cu.n := by
  simp only [mkSexCurve] at h
  split at h
  · rename_i hn
    simp only [Option.some.injEq, Prod.mk.injEq] at h
    rw [← h.1]
    exact hn
  · simp at h

lemma mkSexCurve_nil (g : NpRandom) (c : String) :
    mkSexCurve [] g c = none := by
  simp [mkSexCurve, dropDupMrn, dropDupMrnAux]

lemma survival_curve_intervention_eq (g : NpRandom) (df : List MergedRow)
    (s : List SubjectRow) (i : List InterventionRow) (p : List ProtocolRow) :
    survival_curve g "intervention" df s i p =
      runStrata (mkInterventionCurve df s i) (npSeed 42)
        ((pdUnique (i.map (fun r => r.intervention_category))).take 4) := rfl

lemma survival_curve_protocol_eq (g : NpRandom) (df : List MergedRow)
    (s : List SubjectRow) (i : List InterventionRow) (p : List ProtocolRow) :
    survival_curve g "protocol" df s i p =
      runStrata (mkProtocolCurve df s p) (npSeed 42)
        (((valueCounts (s.map (fun x => x.protocol_id))).take 4).map
          (fun x => x.1)) := rfl

lemma survival_curve_gene_eq (g : NpRandom) (df : List MergedRow)
    (s : List SubjectRow) (i : List InterventionRow) (p : List ProtocolRow) :
    survival_curve g "gene" df s i p =
      runStrata (mkGeneCurve df) (npSeed 42)
        (((valueCounts (df.map (fun r => r.gene))).take 4).map
          (fun x => x.1)) := rfl

lemma survival_curve_sex_eq (g : NpRandom) (df : List MergedRow)
    (s : List SubjectRow) (i : List InterventionRow) (p : List ProtocolRow) :
    survival_curve g "sex" df s i p =
      runStrata (mkSexCurve df) (npSeed 42) ["male", "female"] := rfl

/-- C6 counterexample: stratifying by intervention, the code's strata
are `interventions['intervention_category'].unique()[:4]` — the first
four distinct categories in appearance order. On `intvC`, curves are
emitted for CatA-CatD although CatE occurs three times and each of
CatA-CatD only once, so the most frequent category gets no curve while
a less frequent one does: the strata are not the top-4 most frequent
values (any tie-break of the frequency ranking must include CatE).
This refutes the claim that every stratification key bounds its curves
to the top-4 most frequent stratum values. -/
theorem C6_top4_counterexample :
    ((survival_curve (npSeed 0) "intervention" dfC subjC intvC protC).map
        (fun cu => cu.value)) = ["CatA", "CatB", "CatC", "CatD"] ∧
    (valueCounts (intvC.map (fun r => r.intervention_category))).take 4 =
      [("CatE", 3), ("CatA", 1), ("CatB", 1), ("CatC", 1)] :=
  ⟨by decide, by decide⟩

/-- C6 amended: each stratification key emits curves only for values
from a bounded candidate list of at most 4 strata — for protocol and
gene these are the top-4 most frequent values (`value_counts().head(4)`),
for sex the fixed pair male/female, but for intervention they are the
first 4 distinct categories in order of appearance in the interventions
table (`unique()[:4]`), which need not be the most frequent ones. -/
theorem C6_top4_amended :
    (∀ (g : NpRandom) (df : List MergedRow) (s : List SubjectRow)
        (i : List InterventionRow) (p : List ProtocolRow),
      ((survival_curve g "intervention" df s i p).map
          (fun cu => cu.value)).Sublist
        ((pdUnique (i.map (fun r => r.intervention_category))).take 4)) ∧
    (∀ (g : NpRandom) (df : List MergedRow) (s : List SubjectRow)
        (i : List InterventionRow) (p : List ProtocolRow),
      ((survival_curve g "protocol" df s i p).map
          (fun cu => cu.value)).Sublist
        (((valueCounts (s.map (fun x => x.protocol_id))).take 4).map
          (fun x => x.1))) ∧
    (∀ (g : NpRandom) (df : List MergedRow) (s : List SubjectRow)
        (i : List InterventionRow) (p : List ProtocolRow),
      ((survival_curve g "gene" df s i p).map
          (fun cu => cu.value)).Sublist
        (((valueCounts (df.map (fun r => r.gene))).take 4).map
          (fun x => x.1))) ∧
    (∀ (g : NpRandom) (df : List MergedRow) (s : List SubjectRow)
        (i : List InterventionRow) (p : List ProtocolRow),
      ((survival_curve g "sex" df s i p).map
          (fun cu => cu.value)).Sublist ["male", "female"]) ∧
    (∀ (g : NpRandom) (key : String) (df : List MergedRow)
        (s : List SubjectRow) (i : List InterventionRow)
        (p : List ProtocolRow),
      (survival_curve g key df s i p).length ≤ 4) := by
  refine ⟨?_, ?_, ?_, ?_, ?_⟩
  · intro g df s i p
    rw [survival_curve_intervention_eq]
    exact runStrata_sublist _ (mkInterventionCurve_value df s i) _ _
  · intro g df s i p
    rw [survival_curve_protocol_eq]
    exact runStrata_sublist _ (mkProtocolCurve_value df s p) _ _
  · intro g df s i p
    rw [survival_curve_gene_eq]
    exact runStrata_sublist _ (mkGeneCurve_value df) _ _
  · intro g df s i p
    rw [survival_curve_sex_eq]
    exact runStrata_sublist _ (mkSexCurve_value df) _ _
  · intro g key df s i p
    simp only [survival_curve]
    split_ifs with h1 h2 h3 h4
    · exact le_trans (runStrata_length_le _ _ _)
        (by rw [List.length_take]; exact min_le_left _ _)
    · exact le_trans (runStrata_length_le _ _ _)
        (by rw [List.length_map, List.length_take]; exact min_le_left _ _)
    · exact le_trans (runStrata_length_le _ _ _)
        (by rw [List.length_map, List.length_take]; exact min_le_left _ _)
    · exact le_trans (runStrata_length_le _ _ _) (by decide)
    · simp

/-- C8: strata with an empty patient subset are skipped — every emitted
curve has a positive patient count; stratifying by gene when the cohort
has fewer than 4 distinct genes emits exactly one non-empty stratum per
distinct gene; and an empty cohort yields the valid empty output for
every stratification key (never an exception — the function is total). -/
theorem C8_skip_empty_strata :
    (∀ (g : NpRandom) (key : String) (df : List MergedRow)
        (s : List SubjectRow) (i : List InterventionRow)
        (p : List ProtocolRow),
      ∀ cu ∈ survival_curve g key df s i p, 0 < cu.n) ∧
    (∀ (g : NpRandom) (df : List MergedRow) (s : List SubjectRow)
        (i : List InterventionRow) (p : List ProtocolRow),
      (pdUnique (df.map (fun r => r.gene))).length < 4 →
        (survival_curve g "gene" df s i p).length =
          (pdUnique (df.map (fun r => r.gene))).length) ∧
    (∀ (g : NpRandom) (key : String) (s : List SubjectRow)
        (i : List InterventionRow) (p : List ProtocolRow),
      survival_curve g key [] s i p = []) := by
  refine ⟨?_, ?_, ?_⟩
  · intro g key df s i p cu hcu
    simp only [survival_curve] at hcu
    split_ifs at hcu with h1 h2 h3 h4
    · exact runStrata_n_pos _ (mkInterventionCurve_n_pos df s i) _ _ cu hcu
    · exact runStrata_n_pos _ (mkProtocolCurve_n_pos df s p) _ _ cu hcu
    · exact runStrata_n_pos _ (mkGeneCurve_n_pos df) _ _ cu hcu
    · exact runStrata_n_pos _ (mkSexCurve_n_pos df) _ _ cu hcu
    · simp at hcu
  · intro g df s i p h
    rw [survival_curve_gene_eq]
    have hlen : (valueCounts (df.map (fun r => r.gene))).length < 4 := by
      rw [valueCounts_length]; exact h
    have htake : (valueCounts (df.map (fun r => r.gene))).take 4 =
        valueCounts (df.map (fun r => r.gene)) :=
      List.take_of_length_le (Nat.le_of_lt hlen)
    rw [htake]
    have hsome : ∀ c ∈ (valueCounts (df.map (fun r => r.gene))).map
        (fun x => x.1), ∀ g2 : NpRandom,
        ((mkGeneCurve df) g2 c).isSome = true := by
      intro c hc g2
      apply mkGeneCurve_isSome
      have hcl := mem_valueCounts_fst _ c hc
      rw [List.mem_map] at hcl
      obtain ⟨r, hr, hrg⟩ := hcl
      exact ⟨r, hr, hrg⟩
    rw [runStrata_length_eq (mkGeneCurve df) _ hsome (npSeed 42),
      List.length_map, valueCounts_length]
  · intro g key s i p
    simp only [survival_curve]
    split_ifs with h1 h2 h3 h4
    · exact runStrata_eq_nil _ (fun g2 c => mkInterventionCurve_nil s i g2 c) _ _
    · exact runStrata_eq_nil _ (fun g2 c => mkProtocolCurve_nil s p g2 c) _ _
    · exact runStrata_eq_nil _ (fun g2 c => mkGeneCurve_nil g2 c) _ _
    · exact runStrata_eq_nil _ (fun g2 c => mkSexCurve_nil g2 c) _ _
    · rfl

theorem C8_skip_empty_strata_witness :
    0 < cW.n ∧
    (survival_curve (npSeed 0) "gene" dfW [] [] []).length =
      (pdUnique (dfW.map (fun r => r.gene))).length ∧
    survival_curve (npSeed 0) "sex" [] [] [] [] = [] :=
  ⟨C8_skip_empty_strata.1 (npSeed 0) "gene" dfW [] [] [] cW (by decide),
   C8_skip_empty_strata.2.1 (npSeed 0) dfW [] [] [] (by decide),
   C8_skip_empty_strata.2.2 (npSeed 0) "sex" [] [] []⟩

lemma oncoprintGenes_pairwise (df : List MergedRow) :
    List.Pairwise (fun g1 g2 =>
      (df.map (fun r => r.gene)).count g2 ≤ (df.map (fun r => r.gene)).count g1)
      (oncoprintGenes df) := by
  have hs2 : List.Pairwise (fun p q : String × Nat =>
      (df.map (fun r => r.gene)).count q.1 ≤ (df.map (fun r => r.gene)).count p.1)
      (valueCounts (df.map (fun r => r.gene))) := by
    refine (valueCounts_sorted _).imp_of_mem ?_
    intro p q hp hq hpq
    rw [← valueCounts_snd _ p hp, ← valueCounts_snd _ q hq]
    exact hpq
  have ht := hs2.sublist (List.take_sublist 10 _)
  exact List.pairwise_map.mpr ht

/-- C9 counterexample: on `df9` the oncoprint's row order is
["G1", "G2"] (descending gene frequency, `value_counts().head(10)`),
yet G1 has pathogenic load 0 while G2 is pathogenic in 2 sampled
columns — the rows are not sorted descending by pathogenic load. On
`df9b` the column selection is `unique()[:20]` in appearance order:
patient 21, the only patient with 5 variants (all others have 1), is
cut off — the columns are not a top-N by per-sample variant count.
This refutes both the ordering rule and the column-selection rule of
the claim. -/
theorem C9_oncoprint_counterexample :
    oncoprintGenes df9 = ["G1", "G2"] ∧
    pathLoadCount df9 "G1" = 0 ∧
    pathLoadCount df9 "G2" = 2 ∧
    oncoprintPatients df9b = (List.range 20).map (fun i => i + 1) ∧
    (oncoprintPatients df9b).contains 21 = false ∧
    variantCount df9b 21 = 5 ∧
    variantCount df9b 1 = 1 :=
  ⟨by decide, by decide, by decide, by decide, by decide, by decide,
   by decide⟩

/-- C9 amended: the oncoprint rows are the top-10 genes by variant
frequency, ordered by descending frequency (not by pathogenic load),
and the columns are a prefix — the first at most 20 in appearance
order, not a selection by per-sample variant count — of the distinct
patients among the rows of those genes. -/
theorem C9_oncoprint_amended (df : List MergedRow) :
    (oncoprintGenes df).length ≤ 10 ∧
    (oncoprintPatients df).length ≤ 20 ∧
    List.Pairwise (fun g1 g2 =>
      (df.map (fun r => r.gene)).count g2 ≤ (df.map (fun r => r.gene)).count g1)
      (oncoprintGenes df) ∧
    oncoprintPatients df <+:
      pdUnique ((oncoprintGeneData df).map (fun r => r.mrn)) := by
  refine ⟨?_, ?_, oncoprintGenes_pairwise df, List.take_prefix _ _⟩
  · simp only [oncoprintGenes, List.length_map, List.length_take]
    exact min_le_left _ _
  · simp only [oncoprintPatients, List.length_take]
    exact min_le_left _ _
